import Mathlib

/-!
Shallow embedding of the attendance-metrics logic of
src/app/api/upload/route.ts (primary handler variant): the time parser
parseTime, the date parser parseDate, the string-only date parser
parseDateString of the reduced handler variant, the daily metrics
calculator calculateDailyMetrics, and the record-aggregation loop of
the POST handler (aggregateRecords).

Modelling choices:
* JavaScript numbers that appear in spreadsheet cells are modelled as
  integers (Cell.num : Int); String() on an integral number agrees
  with Lean's decimal toString.  Derived quantities (hours,
  percentages) are modelled as exact rationals.
* String scanning (trim, separator search, split) is carried out on
  the character list of the string; split is implemented for a
  one-character separator, which is the only shape the source ever
  passes (a colon or a period).
* A JavaScript Date value is its millisecond count since the Unix
  epoch (Int).  The host's textual date constructor new Date(string),
  the clock Date.now() used by the fallback new Date(), and the
  local-time offset that getDay() consults are parameters of the
  embedding, collected in a DateEnv record.
* Math.round(x) is floor(x + 1/2) (jsMathRound), exactly as in
  JavaScript.  Number(x.toFixed(2)) is applied by the source only to
  x = diffMins / 60 with diffMins a (positive) integer; there
  100 * x = diffMins * 5 / 3 is never a half-integer, so rounding to
  the nearest hundredth is unambiguous and jsToFixed2Num models the
  double computation exactly on every reachable input.
-/

/-- A spreadsheet cell as the handler sees it for the In-Time/Out-Time
columns: absent (undefined), a string, or a number (modelled as an
integer). -/
inductive Cell where
  | empty : Cell
  | str (s : String) : Cell
  | num (n : Int) : Cell
deriving DecidableEq

/-- JavaScript truthiness test on a cell (the `if (!timeVal)` guard):
undefined, the empty string and the number 0 are falsy. -/
def jsFalsy : Cell → Bool
  | Cell.empty => true
  | Cell.str s => s == ""
  | Cell.num n => n == 0

/-- JavaScript String() coercion of a cell value.  String(undefined)
is the word undefined (unreachable in parseTime behind the falsy
guard); an integral number prints in decimal like Lean's toString. -/
def jsToString : Cell → String
  | Cell.empty => "undefined"
  | Cell.str s => s
  | Cell.num n => toString n

/-- String.prototype.trim() on the character list: drop whitespace
from both ends. -/
def jsTrim (cs : List Char) : List Char :=
  ((cs.dropWhile Char.isWhitespace).reverse.dropWhile Char.isWhitespace).reverse

/-- String.prototype.split with a one-character separator: cut the
character list at every occurrence of the separator; the empty string
splits to one empty part, like in JavaScript. -/
def jsSplit (sep : Char) : List Char → List (List Char)
  | [] => [[]]
  | c :: cs =>
      let rest := jsSplit sep cs
      if c = sep then [] :: rest
      else (c :: rest.headD []) :: rest.tail

/-- JavaScript parseInt(s, 10): skip leading whitespace, read an
optional sign, then the maximal run of decimal digits; NaN (none) when
that run is empty, otherwise the signed value of the run (any trailing
garbage is ignored). -/
def jsParseInt (s : List Char) : Option Int :=
  let afterWs := s.dropWhile Char.isWhitespace
  let signRest : Int × List Char :=
    match afterWs with
    | '-' :: r => (-1, r)
    | '+' :: r => (1, r)
    | r => (1, r)
  let ds := signRest.2.takeWhile Char.isDigit
  if ds.isEmpty then none
  else some (signRest.1 * (ds.foldl (fun a c => a * 10 + (c.toNat - 48)) 0 : Nat))

/-- String.prototype.padStart(2, zero): left-pad to length at least
two with zero characters. -/
def padStart2 (s : String) : String :=
  if s.length < 2 then String.mk (List.replicate (2 - s.length) '0') ++ s else s

/-- Separator detection of parseTime: split on the colon when one
occurs anywhere in the trimmed string, otherwise on the period. -/
def timeSep (t : List Char) : Char := if t.contains ':' then ':' else '.'

/-- The first two parts parseTime inspects for a given cell: String()
coercion, trim, separator detection, split (shared by parseTime and
the theorems that quantify over its parts). -/
def timeParts (v : Cell) : List (List Char) :=
  let t := jsTrim (jsToString v).toList
  jsSplit (timeSep t) t

/-- The normalised time produced by parseTime: the zero-padded display
string and the minutes-since-midnight count (hours * 60 + minutes). -/
structure ParsedTime where
  str : String
  mins : Int
deriving DecidableEq

/-- parseTime of src/app/api/upload/route.ts: falsy guard, String()
coercion and trim, emptiness guard, separator detection, split, arity
guard, parseInt of the first two parts, NaN guard, then the padded
display string and the minute count. -/
def parseTime (timeVal : Cell) : Option ParsedTime :=
  if jsFalsy timeVal then none
  else
    let timeStr := jsTrim (jsToString timeVal).toList
    if timeStr.isEmpty then none
    else
      let parts := jsSplit (timeSep timeStr) timeStr
      if parts.length < 2 then none
      else
        match jsParseInt (parts.getD 0 []), jsParseInt (parts.getD 1 []) with
        | some hours, some minutes =>
            some { str := padStart2 (toString hours) ++ ":" ++ padStart2 (toString minutes),
                   mins := hours * 60 + minutes }
        | _, _ => none

/-- JavaScript Math.round: floor of x + 1/2, rounding halves up. -/
def jsMathRound (q : ℚ) : Int := ⌊q + 1 / 2⌋

/-- A cell of the Date column: absent, a string, a number, or a native
Date object (carried as milliseconds since the Unix epoch). -/
inductive DateCell where
  | empty : DateCell
  | str (s : String) : DateCell
  | num (n : Int) : DateCell
  | dateObj (ms : Int) : DateCell
deriving DecidableEq

/-- The host-environment facts the date logic depends on: what the
Date constructor makes of a string (none for an invalid date), what
the clock reads now, and the local-time offset in milliseconds that
getDay() applies. -/
structure DateEnv where
  textParse : String → Option Int
  now : Int
  tzOffsetMs : Int

/-- parseDate of src/app/api/upload/route.ts: a Date instance is
returned unchanged; a number is an Excel serial, converted by
Math.round((serial - 25569) * 86400 * 1000) milliseconds since the
epoch; a string goes through the host date parser with fallback to now
on an invalid result; an absent cell yields an invalid Date and hence
also falls back to now. -/
def parseDate (env : DateEnv) : DateCell → Int
  | DateCell.dateObj ms => ms
  | DateCell.num n => jsMathRound (((n : ℚ) - 25569) * 86400 * 1000)
  | DateCell.str s =>
      match env.textParse s with
      | some ms => ms
      | none => env.now
  | DateCell.empty => env.now

/-- parseDateString of the reduced handler variant: a Date instance is
returned unchanged; any other value is fed to the Date constructor —
in particular a number is taken as milliseconds since the epoch — with
fallback to now when the result is invalid. -/
def parseDateString (env : DateEnv) : DateCell → Int
  | DateCell.dateObj ms => ms
  | DateCell.num n => n
  | DateCell.str s =>
      match env.textParse s with
      | some ms => ms
      | none => env.now
  | DateCell.empty => env.now

/-- Date.prototype.getDay(): the weekday index 0 (Sunday) .. 6
(Saturday) of the local-time calendar day containing the instant; the
epoch day 0 was a Thursday, hence the offset 4. -/
def jsGetDay (env : DateEnv) (ms : Int) : Int :=
  ((ms + env.tzOffsetMs).fdiv 86400000 + 4) % 7

/-- One input row as typed by the handler's ExcelRow interface: an
optional Employee Name, the Date cell and the two punch cells. -/
structure ExcelRow where
  employeeName : Option String
  date : DateCell
  inTime : Cell
  outTime : Cell

/-- WEEKDAY_HOURS of the configuration block. -/
def WEEKDAY_HOURS : ℚ := 8.5
/-- SATURDAY_HOURS of the configuration block. -/
def SATURDAY_HOURS : ℚ := 4.0
/-- SUNDAY_HOURS of the configuration block. -/
def SUNDAY_HOURS : ℚ := 0

/-- Number(x.toFixed(2)): round to the nearest hundredth.  Exact for
every value the calculator feeds it (see the module comment). -/
def jsToFixed2Num (q : ℚ) : ℚ := (jsMathRound (q * 100) : ℚ) / 100

/-- The per-day output record of calculateDailyMetrics; the ISO date
string of the source is carried as the underlying millisecond value. -/
structure DailyRecord where
  date : Int
  dayName : String
  inTime : String
  outTime : String
  expectedHours : ℚ
  workedHours : ℚ
  isLeave : Bool
deriving DecidableEq

/-- calculateDailyMetrics of src/app/api/upload/route.ts: parse the
date, classify the weekday (Sunday 0 / Saturday 6 / other), pick the
expected hours, parse both punches, and on a non-Sunday mark leave
when either punch is missing, otherwise convert the positive part of
the minute difference to hours at two decimals; punches are echoed as
display strings with a dash sentinel when absent. -/
def calculateDailyMetrics (env : DateEnv) (row : ExcelRow) : DailyRecord :=
  let date := parseDate env row.date
  let dayIndex := jsGetDay env date
  let dayName := if dayIndex = 0 then "Sunday" else if dayIndex = 6 then "Saturday" else "Weekday"
  let expected := if dayIndex = 0 then SUNDAY_HOURS else if dayIndex = 6 then SATURDAY_HOURS else WEEKDAY_HOURS
  let inObj := parseTime row.inTime
  let outObj := parseTime row.outTime
  let workedLeave : ℚ × Bool :=
    if dayIndex = 0 then (0, false)
    else
      match inObj, outObj with
      | some i, some o =>
          let diffMins := o.mins - i.mins
          (if 0 < diffMins then jsToFixed2Num ((diffMins : ℚ) / 60) else 0, false)
      | _, _ => (0, true)
  { date := date
    dayName := dayName
    inTime := match inObj with | some t => t.str | none => "-"
    outTime := match outObj with | some t => t.str | none => "-"
    expectedHours := expected
    workedHours := workedLeave.1
    isLeave := workedLeave.2 }

/-- Number(x.toFixed(1)) kept as a string: round to the nearest tenth
and print with exactly one decimal digit.  The aggregator only ever
feeds it a nonnegative ratio; the sign split keeps the definition
total. -/
def jsToFixed1 (q : ℚ) : String :=
  let n := jsMathRound (q * 10)
  if n < 0 then "-" ++ toString ((-n) / 10) ++ "." ++ toString ((-n) % 10)
  else toString (n / 10) ++ "." ++ toString (n % 10)

/-- The summary assembled by the POST handler from the record loop. -/
structure Summary where
  totalExpected : ℚ
  totalWorked : ℚ
  leavesTaken : Nat
  productivity : String
deriving DecidableEq

/-- One step of the POST record loop: add the record's expected and
worked hours to the running totals and bump the leave counter when the
record is a leave. -/
def aggStep (acc : ℚ × ℚ × Nat) (r : DailyRecord) : ℚ × ℚ × Nat :=
  (acc.1 + r.expectedHours, acc.2.1 + r.workedHours,
   if r.isLeave then acc.2.2 + 1 else acc.2.2)

/-- The record-processing loop and productivity computation of the
POST handler (primary variant): fold the records through the three
accumulators starting from zero, then productivity is the one-decimal
fixed-point percentage of worked over expected, or the string 0.0 when
the expected total is not positive. -/
def aggregateRecords (records : List DailyRecord) : Summary :=
  let acc := records.foldl aggStep (0, 0, 0)
  { totalExpected := acc.1
    totalWorked := acc.2.1
    leavesTaken := acc.2.2
    productivity := if 0 < acc.1 then jsToFixed1 (acc.2.1 / acc.1 * 100) else "0.0" }

example : parseTime (Cell.str ("9:5")) = some { str := "09:05", mins := 545 } := by decide

example : parseTime (Cell.str ("-1:30")) = some { str := "-1:30", mins := -30 } := by decide

example : parseTime (Cell.str ("10.00")) = some { str := "10:00", mins := 600 } := by decide

example : parseTime (Cell.num 530) = none := by decide

example : parseTime (Cell.str (" ")) = none := by decide

example : jsToFixed2Num ((510 : ℚ) / 60) = 8.5 := by norm_num [jsToFixed2Num, jsMathRound]

example : jsMathRound (((45200 : ℚ) - 25569) * 86400 * 1000) = 1696118400000 := by
  norm_num [jsMathRound]

/-! Helper lemmas. -/

theorem jsMathRound_intCast (n : Int) : jsMathRound (n : ℚ) = n := by
  unfold jsMathRound
  rw [Int.floor_int_add]
  norm_num

theorem parseDate_num (env : DateEnv) (n : Int) :
    parseDate env (DateCell.num n) = (n - 25569) * 86400000 := by
  have h : ((n : ℚ) - 25569) * 86400 * 1000 = (((n - 25569) * 86400000 : Int) : ℚ) := by
    push_cast
    ring
  simp only [parseDate, h, jsMathRound_intCast]

theorem jsToFixed2Num_nonneg {q : ℚ} (hq : 0 ≤ q) : 0 ≤ jsToFixed2Num q := by
  unfold jsToFixed2Num jsMathRound
  have h : (0 : Int) ≤ ⌊q * 100 + 1 / 2⌋ := by
    rw [Int.le_floor]
    push_cast
    nlinarith
  positivity

theorem jsToFixed2Num_nonpos {q : ℚ} (hq : q ≤ 0) : jsToFixed2Num q ≤ 0 := by
  unfold jsToFixed2Num jsMathRound
  have h : ⌊q * 100 + 1 / 2⌋ ≤ 0 := by
    have h1 : ⌊q * 100 + 1 / 2⌋ < 1 := by
      rw [Int.floor_lt]
      push_cast
      nlinarith
    omega
  have h2 : ((⌊q * 100 + 1 / 2⌋ : Int) : ℚ) ≤ 0 := by exact_mod_cast h
  linarith

/-- The fixed environment used by the concrete witnesses: the host
date parser accepts nothing, the clock reads the epoch, and the local
time zone is UTC. -/
def dateEnv0 : DateEnv :=
  { textParse := fun _ => none, now := 0, tzOffsetMs := 0 }

/-- A concrete Sunday row (Excel serial 45200 is Sunday 2023-10-01)
with both punches present. -/
def rowSun : ExcelRow :=
  { employeeName := none, date := DateCell.num 45200,
    inTime := Cell.str ("09:00"), outTime := Cell.str ("17:30") }

theorem jsGetDay_45200 : jsGetDay dateEnv0 (parseDate dateEnv0 (DateCell.num 45200)) = 0 := by
  rw [parseDate_num]
  decide

/-- C1: for every input row, the record of the Daily Metrics
Calculator has isLeave set exactly when the day category is not Sunday
and at least one punch fails to parse, and workedHours is 0 whenever
isLeave is set or the day is Sunday (even with both punches present on
a Sunday). -/
theorem claim_C1 (env : DateEnv) (row : ExcelRow) :
    ((calculateDailyMetrics env row).isLeave = true ↔
      ((calculateDailyMetrics env row).dayName ≠ "Sunday" ∧
        (parseTime row.inTime = none ∨ parseTime row.outTime = none))) ∧
    (((calculateDailyMetrics env row).isLeave = true ∨
        (calculateDailyMetrics env row).dayName = "Sunday") →
      (calculateDailyMetrics env row).workedHours = 0) := by
  by_cases hd : jsGetDay env (parseDate env row.date) = 0
  · rcases hin : parseTime row.inTime with _ | i <;>
      rcases hout : parseTime row.outTime with _ | o <;>
        simp [calculateDailyMetrics, hd, hin, hout]
  · by_cases hd6 : jsGetDay env (parseDate env row.date) = 6 <;>
      rcases hin : parseTime row.inTime with _ | i <;>
        rcases hout : parseTime row.outTime with _ | o <;>
          simp [calculateDailyMetrics, hd, hd6, hin, hout]

/-- C1 witness: on the concrete Sunday row with both punches present,
the worked hours are 0. -/
theorem claim_C1_witness : (calculateDailyMetrics dateEnv0 rowSun).workedHours = 0 := by
  refine (claim_C1 dateEnv0 rowSun).2 (Or.inr ?_)
  simp [calculateDailyMetrics, rowSun, jsGetDay_45200]

/-- A concrete Wednesday row (Excel serial 45203 is Wednesday
2023-10-04) with punches 09:00 and 17:30. -/
def rowWed : ExcelRow :=
  { employeeName := none, date := DateCell.num 45203,
    inTime := Cell.str ("09:00"), outTime := Cell.str ("17:30") }

theorem jsGetDay_45203 : jsGetDay dateEnv0 (parseDate dateEnv0 (DateCell.num 45203)) = 3 := by
  rw [parseDate_num]
  decide

/-- C2: on a non-Sunday row whose punches both parse, the worked hours
are the clamped two-decimal rounding of the minute difference over 60,
the expected hours are 4.0 on Saturday and 8.5 on a weekday, and the
concrete Wednesday row with punches 09:00 and 17:30 yields 8.5 worked
hours. -/
theorem claim_C2 (env : DateEnv) (row : ExcelRow) (i o : ParsedTime)
    (hd : jsGetDay env (parseDate env row.date) ≠ 0)
    (hin : parseTime row.inTime = some i)
    (hout : parseTime row.outTime = some o) :
    ((calculateDailyMetrics env row).workedHours =
        max 0 (jsToFixed2Num (((o.mins : ℚ) - (i.mins : ℚ)) / 60))) ∧
    ((calculateDailyMetrics env row).expectedHours =
        if jsGetDay env (parseDate env row.date) = 6 then SATURDAY_HOURS else WEEKDAY_HOURS) ∧
    (calculateDailyMetrics dateEnv0 rowWed).workedHours = 8.5 := by
  have hinWed : parseTime (Cell.str ("09:00")) = some { str := "09:00", mins := 540 } := by decide
  have houtWed : parseTime (Cell.str ("17:30")) = some { str := "17:30", mins := 1050 } := by decide
  refine ⟨?_, ?_, ?_⟩
  · by_cases hpos : 0 < o.mins - i.mins
    · have hcast : ((o.mins - i.mins : Int) : ℚ) = (o.mins : ℚ) - (i.mins : ℚ) := by push_cast; ring
      have hnn : 0 ≤ jsToFixed2Num (((o.mins : ℚ) - (i.mins : ℚ)) / 60) := by
        apply jsToFixed2Num_nonneg
        have : (0 : ℚ) < (o.mins : ℚ) - (i.mins : ℚ) := by exact_mod_cast hpos
        positivity
      simp [calculateDailyMetrics, hd, hin, hout, hpos, hcast, max_eq_right hnn]
    · have hle : (o.mins : ℚ) - (i.mins : ℚ) ≤ 0 := by
        have : o.mins - i.mins ≤ 0 := by omega
        exact_mod_cast this
      have hnp : jsToFixed2Num (((o.mins : ℚ) - (i.mins : ℚ)) / 60) ≤ 0 := by
        apply jsToFixed2Num_nonpos
        linarith
      simp [calculateDailyMetrics, hd, hin, hout, hpos, max_eq_left hnp]
  · simp [calculateDailyMetrics, hd]
  · simp [calculateDailyMetrics, rowWed, jsGetDay_45203, hinWed, houtWed, jsToFixed2Num, jsMathRound]
    norm_num

/-- C2 witness: the Wednesday row with punches 09:00 and 17:30 worked
8.5 hours. -/
theorem claim_C2_witness : (calculateDailyMetrics dateEnv0 rowWed).workedHours = 8.5 :=
  (claim_C2 dateEnv0 rowWed { str := "09:00", mins := 540 } { str := "17:30", mins := 1050 }
    (by rw [show rowWed.date = DateCell.num 45203 from rfl, jsGetDay_45203]; decide)
    (by decide) (by decide)).2.2

theorem aggFoldl_expected (l : List DailyRecord) (p : ℚ × ℚ × Nat) :
    (l.foldl aggStep p).1 = p.1 + (l.map DailyRecord.expectedHours).sum := by
  induction l generalizing p with
  | nil => simp
  | cons r t ih =>
      rw [List.foldl_cons, ih]
      simp [aggStep]
      ring

theorem aggFoldl_worked (l : List DailyRecord) (p : ℚ × ℚ × Nat) :
    (l.foldl aggStep p).2.1 = p.2.1 + (l.map DailyRecord.workedHours).sum := by
  induction l generalizing p with
  | nil => simp
  | cons r t ih =>
      rw [List.foldl_cons, ih]
      simp [aggStep]
      ring

theorem aggFoldl_leaves (l : List DailyRecord) (p : ℚ × ℚ × Nat) :
    (l.foldl aggStep p).2.2 = p.2.2 + (l.filter (fun r => r.isLeave)).length := by
  induction l generalizing p with
  | nil => simp
  | cons r t ih =>
      rw [List.foldl_cons, ih]
      by_cases hr : r.isLeave
      · simp [aggStep, hr]
        omega
      · simp [aggStep, hr]

/-- The three-record example of the specification: a full weekday, a
half-worked Saturday, and a Sunday. -/
def exampleRecords : List DailyRecord :=
  [ { date := 0, dayName := "Weekday", inTime := "-", outTime := "-",
      expectedHours := 8.5, workedHours := 8.5, isLeave := false },
    { date := 0, dayName := "Saturday", inTime := "-", outTime := "-",
      expectedHours := 4.0, workedHours := 2.0, isLeave := false },
    { date := 0, dayName := "Sunday", inTime := "-", outTime := "-",
      expectedHours := 0, workedHours := 0, isLeave := false } ]

/-- C3: the aggregator returns the sum of expected hours, the sum of
worked hours, the count of leave records, and the one-decimal
fixed-point productivity percentage (the string 0.0 when the expected
total is zero, in particular on the empty sequence); on the example
records with expected 8.5, 4.0, 0 and worked 8.5, 2.0, 0 it yields
totals 12.5 and 10.5 and productivity 84.0. -/
theorem claim_C3 (records : List DailyRecord) :
    ((aggregateRecords records).totalExpected = (records.map DailyRecord.expectedHours).sum) ∧
    ((aggregateRecords records).totalWorked = (records.map DailyRecord.workedHours).sum) ∧
    ((aggregateRecords records).leavesTaken = (records.filter (fun r => r.isLeave)).length) ∧
    (0 < (records.map DailyRecord.expectedHours).sum →
      (aggregateRecords records).productivity =
        jsToFixed1 ((records.map DailyRecord.workedHours).sum /
          (records.map DailyRecord.expectedHours).sum * 100)) ∧
    ((records.map DailyRecord.expectedHours).sum = 0 →
      (aggregateRecords records).productivity = "0.0") ∧
    ((aggregateRecords exampleRecords).totalExpected = 12.5 ∧
      (aggregateRecords exampleRecords).totalWorked = 10.5 ∧
      (aggregateRecords exampleRecords).productivity = "84.0") := by
  refine ⟨?_, ?_, ?_, ?_, ?_, ?_, ?_, ?_⟩
  · simp [aggregateRecords, aggFoldl_expected]
  · simp [aggregateRecords, aggFoldl_worked]
  · simp [aggregateRecords, aggFoldl_leaves]
  · intro hpos
    simp [aggregateRecords, aggFoldl_expected, aggFoldl_worked, hpos]
  · intro hzero
    simp [aggregateRecords, aggFoldl_expected, hzero]
  · simp [aggregateRecords, exampleRecords, aggStep]
    norm_num
  · simp [aggregateRecords, exampleRecords, aggStep]
    norm_num
  · simp only [aggregateRecords, exampleRecords, List.foldl_cons, List.foldl_nil, aggStep]
    norm_num
    norm_num [jsToFixed1, jsMathRound]
    decide

/-- C3 witness: aggregating the empty sequence yields the productivity
string 0.0. -/
theorem claim_C3_witness : (aggregateRecords []).productivity = "0.0" :=
  (claim_C3 []).2.2.2.2.1 (by simp)

/-- C4: whenever the first two parts of a time string parse as base-10
integers h and m, parseTime succeeds with minutesSinceMidnight
h * 60 + m and the display string made of the two zero-padded numbers
joined by a colon. -/
theorem claim_C4 (s : String) (h m : Int)
    (hh : jsParseInt ((timeParts (Cell.str s)).getD 0 []) = some h)
    (hm : jsParseInt ((timeParts (Cell.str s)).getD 1 []) = some m) :
    parseTime (Cell.str s) =
      some { str := padStart2 (toString h) ++ ":" ++ padStart2 (toString m),
             mins := h * 60 + m } := by
  unfold timeParts at hh hm
  unfold parseTime
  by_cases hs : jsFalsy (Cell.str s) = true
  · have hs' : s = "" := by simpa [jsFalsy] using hs
    subst hs'
    simp [jsToString, jsTrim, jsSplit, jsParseInt] at hh
  · rw [if_neg hs]
    by_cases hemp : (jsTrim (jsToString (Cell.str s)).toList).isEmpty = true
    · have ht : jsTrim (jsToString (Cell.str s)).toList = [] := by
        simpa [List.isEmpty_iff] using hemp
      rw [ht] at hh
      simp [jsSplit, jsParseInt] at hh
    · rw [if_neg hemp]
      by_cases hlen :
          (jsSplit (timeSep (jsTrim (jsToString (Cell.str s)).toList))
            (jsTrim (jsToString (Cell.str s)).toList)).length < 2
      · have h1 :
            (jsSplit (timeSep (jsTrim (jsToString (Cell.str s)).toList))
              (jsTrim (jsToString (Cell.str s)).toList)).getD 1 [] = [] := by
          apply List.getD_eq_default
          omega
        rw [h1] at hm
        simp [jsParseInt] at hm
      · rw [if_neg hlen, hh, hm]

/-- C4 witness: the string 9:5 parses to display 09:05 with 545
minutes since midnight. -/
theorem claim_C4_witness : parseTime (Cell.str ("9:5")) = some { str := "09:05", mins := 545 } := by
  rw [claim_C4 "9:5" 9 5 (by decide) (by decide)]
  decide

/-- C5: parseTime is total and returns absent exactly when the cell is
falsy, or trims to the empty string, or splits into fewer than two
parts on the detected separator, or one of the first two parts fails
to parse as a base-10 integer; otherwise it returns a ParsedTime. -/
theorem claim_C5 (v : Cell) :
    parseTime v = none ↔
      (jsFalsy v = true ∨ jsTrim (jsToString v).toList = [] ∨
        (timeParts v).length < 2 ∨
        jsParseInt ((timeParts v).getD 0 []) = none ∨
        jsParseInt ((timeParts v).getD 1 []) = none) := by
  unfold parseTime timeParts
  dsimp only
  by_cases h1 : jsFalsy v = true
  · simp [h1]
  · rw [if_neg h1]
    by_cases h2 : jsTrim (jsToString v).toList = []
    · rw [h2]
      exact iff_of_true rfl (Or.inr (Or.inl rfl))
    · have h2' : ¬((jsTrim (jsToString v).toList).isEmpty = true) := by
        simpa [List.isEmpty_iff] using h2
      rw [if_neg h2']
      by_cases hlen :
          (jsSplit (timeSep (jsTrim (jsToString v).toList))
            (jsTrim (jsToString v).toList)).length < 2
      · rw [if_pos hlen]
        exact iff_of_true rfl (Or.inr (Or.inr (Or.inl hlen)))
      · rw [if_neg hlen]
        rcases hp0 : jsParseInt ((jsSplit (timeSep (jsTrim (jsToString v).toList))
            (jsTrim (jsToString v).toList)).getD 0 []) with _ | a
        · exact iff_of_true rfl (Or.inr (Or.inr (Or.inr (Or.inl rfl))))
        · rcases hp1 : jsParseInt ((jsSplit (timeSep (jsTrim (jsToString v).toList))
              (jsTrim (jsToString v).toList)).getD 1 []) with _ | b
          · exact iff_of_true rfl (Or.inr (Or.inr (Or.inr (Or.inr rfl))))
          · refine iff_of_false (fun hcontra => Option.noConfusion hcontra) ?_
            rintro (h | h | h | h | h)
            · exact h1 h
            · exact h2 h
            · exact hlen h
            · exact Option.noConfusion h
            · exact Option.noConfusion h

/-- C5 witness: the numeric cell 530 has no separator, splits into a
single part, and parses to absent. -/
theorem claim_C5_witness : parseTime (Cell.num 530) = none :=
  (claim_C5 (Cell.num 530)).mpr (by right; right; left; decide)

/-- C6: the Date Parser is total and never signals an error: a native
date is returned unchanged, an (integral) Excel serial n becomes
(n - 25569) * 86400000 milliseconds since the epoch (the rounding in
the source is the identity on integral serials), a string accepted by
the host date parser becomes that instant, a rejected string falls
back to the evaluation-time clock, and so does an absent cell. -/
theorem claim_C6 (env : DateEnv) (t n : Int) (s : String) :
    parseDate env (DateCell.dateObj t) = t ∧
    parseDate env (DateCell.num n) = (n - 25569) * 86400000 ∧
    (env.textParse s = none → parseDate env (DateCell.str s) = env.now) ∧
    (∀ ms : Int, env.textParse s = some ms → parseDate env (DateCell.str s) = ms) ∧
    parseDate env DateCell.empty = env.now := by
  refine ⟨rfl, parseDate_num env n, ?_, ?_, rfl⟩
  · intro h
    simp [parseDate, h]
  · intro ms h
    simp [parseDate, h]

/-- C6 witness: under the concrete environment whose host parser
rejects every string, the string cell x falls back to the clock. -/
theorem claim_C6_witness : parseDate dateEnv0 (DateCell.str ("x")) = 0 :=
  (claim_C6 dateEnv0 0 0 "x").2.2.1 rfl

/-- The epoch day number of a millisecond instant (floor division, as
a calendar date in UTC). -/
def epochDay (ms : Int) : Int := ms.fdiv 86400000

/-- The proleptic Gregorian calendar date (year, month, day) of an
epoch day number, by the standard era-based conversion. -/
def civilFromDay (z0 : Int) : Int × Int × Int :=
  let z := z0 + 719468
  let era := z.fdiv 146097
  let doe := z - era * 146097
  let yoe := (doe - doe / 1460 + doe / 36524 - doe / 146096) / 365
  let y := yoe + era * 400
  let doy := doe - (365 * yoe + yoe / 4 - yoe / 100)
  let mp := (5 * doy + 2) / 153
  let d := doy - (153 * mp + 2) / 5 + 1
  let m := mp + (if mp < 10 then 3 else -9)
  (y + (if m ≤ 2 then 1 else 0), m, d)

/-- The calendar date (in UTC) of a millisecond instant. -/
def civilOfMs (ms : Int) : Int × Int × Int := civilFromDay (epochDay ms)

/-- C7 counterexample: the numeric spreadsheet serial 45200 parses to
different calendar dates in the two parser variants: parseDate applies
the serial conversion while parseDateString hands the number to the
Date constructor, which reads it as milliseconds since the epoch. -/
theorem claim_C7_counterexample :
    civilOfMs (parseDate dateEnv0 (DateCell.num 45200)) ≠
      civilOfMs (parseDateString dateEnv0 (DateCell.num 45200)) := by
  rw [parseDate_num]
  decide

/-- C7 (amended): the serial-aware parseDate maps the numeric serial
45200 to 2023-10-01; the string-only parseDateString maps the same
cell to 1970-01-01 (it treats a number as milliseconds since the
epoch); the two variants agree on native dates, on string cells and on
absent cells. -/
theorem claim_C7_amended (env : DateEnv) (s : String) (t : Int) :
    civilOfMs (parseDate env (DateCell.num 45200)) = (2023, 10, 1) ∧
    civilOfMs (parseDateString env (DateCell.num 45200)) = (1970, 1, 1) ∧
    parseDateString env (DateCell.str s) = parseDate env (DateCell.str s) ∧
    parseDateString env (DateCell.dateObj t) = parseDate env (DateCell.dateObj t) ∧
    parseDateString env DateCell.empty = parseDate env DateCell.empty := by
  refine ⟨?_, ?_, rfl, rfl, rfl⟩
  · rw [parseDate_num]
    decide
  · rw [show parseDateString env (DateCell.num 45200) = 45200 from rfl]
    decide

/-- A row whose Date cell no host date parser accepts, with both
punches present: the calculator then falls back to the clock. -/
def rowBadDate : ExcelRow :=
  { employeeName := none, date := DateCell.str ("garbage"),
    inTime := Cell.str ("09:00"), outTime := Cell.str ("17:00") }

/-- The same environment as dateEnv0 but with the clock three days
later (the epoch Thursday has become a Sunday). -/
def dateEnvLater : DateEnv :=
  { textParse := fun _ => none, now := 259200000, tzOffsetMs := 0 }

theorem jsGetDay_badDate_env0 : jsGetDay dateEnv0 (parseDate dateEnv0 rowBadDate.date) = 4 := by
  decide

theorem jsGetDay_badDate_later : jsGetDay dateEnvLater (parseDate dateEnvLater rowBadDate.date) = 0 := by
  decide

/-- C8 counterexample: the Daily Metrics Calculator does depend on the
evaluation time: on a row whose date fails to parse, running with the
clock at the epoch (a Thursday) and three days later (a Sunday) gives
different records (expected hours 8.5 against 0). -/
theorem claim_C8_counterexample :
    calculateDailyMetrics dateEnv0 rowBadDate ≠ calculateDailyMetrics dateEnvLater rowBadDate := by
  intro h
  have h1 : (calculateDailyMetrics dateEnv0 rowBadDate).expectedHours = WEEKDAY_HOURS := by
    simp [calculateDailyMetrics, jsGetDay_badDate_env0]
  have h2 : (calculateDailyMetrics dateEnvLater rowBadDate).expectedHours = SUNDAY_HOURS := by
    simp [calculateDailyMetrics, jsGetDay_badDate_later]
  rw [h, h2] at h1
  norm_num [WEEKDAY_HOURS, SUNDAY_HOURS] at h1

/-- Date cells whose parse cannot consult the clock: native dates,
numbers, and strings the host date parser accepts. -/
def dateIndependent (tp : String → Option Int) : DateCell → Prop
  | DateCell.str s => (tp s).isSome = true
  | DateCell.empty => False
  | DateCell.num _ => True
  | DateCell.dateObj _ => True

/-- C8 (amended): the Daily Metrics Calculator is a pure function of
the row and the date environment; its output is independent of the
clock whenever the Date cell is a native date, a number, or a string
the host date parser accepts (the today-fallback is the only clock
dependence); the Batch Aggregator is a pure function of the record
sequence. -/
theorem claim_C8_amended (tp : String → Option Int) (now1 now2 tz : Int) (row : ExcelRow)
    (h : dateIndependent tp row.date) :
    (calculateDailyMetrics { textParse := tp, now := now1, tzOffsetMs := tz } row =
      calculateDailyMetrics { textParse := tp, now := now2, tzOffsetMs := tz } row) ∧
    ∀ rs : List DailyRecord, aggregateRecords rs = aggregateRecords rs := by
  refine ⟨?_, fun _ => rfl⟩
  have hpd : parseDate { textParse := tp, now := now1, tzOffsetMs := tz } row.date =
      parseDate { textParse := tp, now := now2, tzOffsetMs := tz } row.date := by
    cases hc : row.date with
    | dateObj t => rfl
    | num n => rfl
    | empty =>
        rw [hc] at h
        exact absurd h (by simp [dateIndependent])
    | str s =>
        rw [hc] at h
        rcases ho : tp s with _ | ms
        · rw [dateIndependent, ho] at h
          simp at h
        · simp [parseDate, ho]
  simp [calculateDailyMetrics, jsGetDay, hpd]

/-- C8 witness: with a numeric date cell the calculator output is the
same at two different clock readings. -/
theorem claim_C8_witness :
    calculateDailyMetrics { textParse := fun _ => none, now := 0, tzOffsetMs := 0 } rowWed =
      calculateDailyMetrics { textParse := fun _ => none, now := 999, tzOffsetMs := 0 } rowWed :=
  (claim_C8_amended (fun _ => none) 0 999 0 rowWed (by rw [show rowWed.date = DateCell.num 45203 from rfl]; trivial)).1

/-- C9 counterexample: parseTime accepts the string -1:30 (parseInt
reads a signed hour) and returns minutesSinceMidnight -30, which is
negative. -/
theorem claim_C9_counterexample :
    parseTime (Cell.str ("-1:30")) = some { str := "-1:30", mins := -30 } ∧
      ¬(0 ≤ (-30 : Int)) := by
  constructor
  · decide
  · decide

/-- C9 (amended): whenever parseTime succeeds, the returned
minutesSinceMidnight is h * 60 + m for the two integers h and m parsed
from the first two parts, and it is nonnegative whenever both parsed
integers are nonnegative (a signed part can drive it negative). -/
theorem claim_C9_amended (v : Cell) (t : ParsedTime) (hsucc : parseTime v = some t) :
    ∃ h m : Int,
      jsParseInt ((timeParts v).getD 0 []) = some h ∧
      jsParseInt ((timeParts v).getD 1 []) = some m ∧
      t.mins = h * 60 + m ∧
      (0 ≤ h → 0 ≤ m → 0 ≤ t.mins) := by
  unfold parseTime at hsucc
  unfold timeParts
  dsimp only at hsucc ⊢
  by_cases h1 : jsFalsy v = true
  · rw [if_pos h1] at hsucc
    exact Option.noConfusion hsucc
  · rw [if_neg h1] at hsucc
    by_cases h2 : (jsTrim (jsToString v).toList).isEmpty = true
    · rw [if_pos h2] at hsucc
      exact Option.noConfusion hsucc
    · rw [if_neg h2] at hsucc
      by_cases hlen :
          (jsSplit (timeSep (jsTrim (jsToString v).toList))
            (jsTrim (jsToString v).toList)).length < 2
      · rw [if_pos hlen] at hsucc
        exact Option.noConfusion hsucc
      · rw [if_neg hlen] at hsucc
        rcases hp0 : jsParseInt ((jsSplit (timeSep (jsTrim (jsToString v).toList))
            (jsTrim (jsToString v).toList)).getD 0 []) with _ | a
        · rw [hp0] at hsucc
          exact Option.noConfusion hsucc
        · rcases hp1 : jsParseInt ((jsSplit (timeSep (jsTrim (jsToString v).toList))
              (jsTrim (jsToString v).toList)).getD 1 []) with _ | b
          · rw [hp0, hp1] at hsucc
            exact Option.noConfusion hsucc
          · rw [hp0, hp1] at hsucc
            dsimp only at hsucc
            have ht := (Option.some.inj hsucc).symm
            refine ⟨a, b, rfl, rfl, by rw [ht], ?_⟩
            intro ha hb
            rw [ht]
            dsimp only
            omega

/-- C9 witness: on the string 9:5 parseTime succeeds and the amended
property instantiates with h = 9 and m = 5. -/
theorem claim_C9_witness :
    ∃ h m : Int,
      jsParseInt ((timeParts (Cell.str ("9:5"))).getD 0 []) = some h ∧
      jsParseInt ((timeParts (Cell.str ("9:5"))).getD 1 []) = some m ∧
      (({ str := "09:05", mins := 545 } : ParsedTime)).mins = h * 60 + m ∧
      (0 ≤ h → 0 ≤ m → 0 ≤ (({ str := "09:05", mins := 545 } : ParsedTime)).mins) :=
  claim_C9_amended (Cell.str ("9:5")) { str := "09:05", mins := 545 } (by decide)

/-- C10: the numeric cell 0 and the empty-string cell are rejected by
the initial falsy guard of parseTime, so on a non-Sunday row whose
In-Time or Out-Time holds one of them the calculator marks a leave
with zero worked hours; replacing such a punch by an absent cell
leaves the calculator output unchanged (a numeric midnight punch is
indistinguishable from a missing punch). -/
theorem claim_C10 (env : DateEnv) (row : ExcelRow)
    (hd : jsGetDay env (parseDate env row.date) ≠ 0)
    (hcell : row.inTime = Cell.num 0 ∨ row.inTime = Cell.str "" ∨
      row.outTime = Cell.num 0 ∨ row.outTime = Cell.str "") :
    (parseTime (Cell.num 0) = none ∧ parseTime (Cell.str "") = none) ∧
    (calculateDailyMetrics env row).isLeave = true ∧
    (calculateDailyMetrics env row).workedHours = 0 ∧
    calculateDailyMetrics env { row with inTime := Cell.num 0 } =
      calculateDailyMetrics env { row with inTime := Cell.empty } ∧
    calculateDailyMetrics env { row with outTime := Cell.num 0 } =
      calculateDailyMetrics env { row with outTime := Cell.empty } := by
  have hnum : parseTime (Cell.num 0) = none := by decide
  have hstr : parseTime (Cell.str "") = none := by decide
  have hempty : parseTime Cell.empty = none := by decide
  refine ⟨⟨hnum, hstr⟩, ?_, ?_, ?_, ?_⟩
  · rcases hcell with hc | hc | hc | hc
    · simp [calculateDailyMetrics, hd, hc, hnum]
    · simp [calculateDailyMetrics, hd, hc, hstr]
    · rcases hin : parseTime row.inTime with _ | i <;>
        simp [calculateDailyMetrics, hd, hc, hnum, hin]
    · rcases hin : parseTime row.inTime with _ | i <;>
        simp [calculateDailyMetrics, hd, hc, hstr, hin]
  · rcases hcell with hc | hc | hc | hc
    · simp [calculateDailyMetrics, hd, hc, hnum]
    · simp [calculateDailyMetrics, hd, hc, hstr]
    · rcases hin : parseTime row.inTime with _ | i <;>
        simp [calculateDailyMetrics, hd, hc, hnum, hin]
    · rcases hin : parseTime row.inTime with _ | i <;>
        simp [calculateDailyMetrics, hd, hc, hstr, hin]
  · simp [calculateDailyMetrics, hnum, hempty]
  · rcases hin : parseTime row.inTime with _ | i <;>
      simp [calculateDailyMetrics, hnum, hempty, hin]

/-- A concrete Wednesday row whose In-Time is the number 0. -/
def rowZeroIn : ExcelRow :=
  { employeeName := none, date := DateCell.num 45203,
    inTime := Cell.num 0, outTime := Cell.str ("17:30") }

/-- C10 witness: the Wednesday row with the numeric In-Time 0 is a
leave. -/
theorem claim_C10_witness : (calculateDailyMetrics dateEnv0 rowZeroIn).isLeave = true :=
  (claim_C10 dateEnv0 rowZeroIn
    (by rw [show rowZeroIn.date = DateCell.num 45203 from rfl, jsGetDay_45203]; decide)
    (Or.inl rfl)).2.1
